import Mathlib

/-!
Shallow embedding of `src/tools/embedding_server.py` (a FastAPI microservice
wrapping the BGE-M3 embedding model from `pymilvus.model.hybrid`).

The numeric scalar type of the model library (numpy floats) carries no
arithmetic in any verified property, so the embedding is polymorphic in a
value type `V`; witnesses instantiate `V := Int`.

The model library (`BGEM3EmbeddingFunction`) is an external collaborator:
its `encode_queries` / `encode_documents` operations are modelled as oracle
functions returning `Except String _` (`.error msg` models a raised Python
exception with message `msg`, i.e. `str(e)`).  Logging is modelled only to
the extent claims mention it: warnings are counted.
-/

namespace EmbeddingServer

/-- One sparse structure as returned by the model library for one text
(a scipy CSR row): parallel internal arrays `indices` and `data`, plus
`shape` metadata, accessed in the source as `sparse_emb.indices`,
`sparse_emb.data`, `sparse_emb.shape` (lines 103-105, 154-156). -/
structure SparseEmb (V : Type) where
  indices : List Nat
  data : List V
  shape : List Nat
deriving DecidableEq

/-- Native output of `encode_queries` / `encode_documents`:
`embeddings["dense"]` is a list of dense vectors and `embeddings["sparse"]`
a list of sparse structures (spec section 6 collaborator contract). -/
structure EncodeOutput (V : Type) where
  dense : List (List V)
  sparse : List (SparseEmb V)
deriving DecidableEq

/-- A serialized sparse vector in the JSON response:
the dict built at lines 102-106 / 153-157 of the source. -/
structure SparseVector (V : Type) where
  indices : List Nat
  values : List V
  shape : List Nat
deriving DecidableEq

/-- The `serializable_embeddings` dict (lines 99-109 / 150-160): keys
`"dense"` and `"sparse"`. -/
structure SerializedEmbeddings (V : Type) where
  dense : List (List V)
  sparse : List (SparseVector V)
deriving DecidableEq

/-- The `EmbeddingResponse` pydantic model (lines 45-47).  In the source,
`embeddings` is a dict: the success path stores the dense/sparse dict,
the error path stores the empty dict; `none` here models the empty
dict and `some s` the populated one. -/
structure EmbeddingResponse (V : Type) where
  embeddings : Option (SerializedEmbeddings V)
  error : Option String
deriving DecidableEq

/-- The `EmbeddingRequest` pydantic model (lines 40-42) after validation:
`texts` a list of strings, `model_name` a string (default applied by the
validation layer). -/
structure EmbeddingRequest where
  texts : List String
  model_name : String
deriving DecidableEq

/-- The process-wide model handle `bge_m3_ef` once loaded: the
`BGEM3EmbeddingFunction` object with its `model_name` attribute, its
`dim` dict, and its two encode operations (external library,
modelled as oracle functions). -/
structure ModelHandle (V : Type) where
  model_name : String
  dim : List (String × Nat)
  encode_queries : List String → Except String (EncodeOutput V)
  encode_documents : List String → Except String (EncodeOutput V)

/-- Result of a POST handler: either a 200 response with an
`EmbeddingResponse` body, or a raised `HTTPException` with a status
code and a detail string. -/
inductive HandlerResult (V : Type) where
  | response (r : EmbeddingResponse V)
  | httpError (status : Nat) (detail : String)
deriving DecidableEq

/-- Instrumented outcome of one handler invocation: the HTTP-level
result, the list of text batches passed to the encode operation (in
call order), and the number of `logger.warning` emissions. -/
structure HandlerOutcome (V : Type) where
  result : HandlerResult V
  encodeCalls : List (List String)
  warnings : Nat
deriving DecidableEq

/-- Serialization of one sparse structure (lines 102-106 / 153-157):
`indices` from `sparse_emb.indices.tolist()`, `values` from
`sparse_emb.data.tolist()`, `shape` copied from `sparse_emb.shape`. -/
def serializeSparse {V : Type} (s : SparseEmb V) : SparseVector V :=
  ⟨s.indices, s.data, s.shape⟩

/-- The `serializable_embeddings` construction (lines 99-109 / 150-160):
`"dense"` maps each dense array through `.tolist()` (identity on the
mathematical contents), `"sparse"` maps each sparse structure through
`serializeSparse`. -/
def serializeEmbeddings {V : Type} (e : EncodeOutput V) : SerializedEmbeddings V :=
  ⟨e.dense, e.sparse.map serializeSparse⟩

/-- The `POST /embed` handler (lines 71-119).  If `bge_m3_ef is None`,
raises HTTPException 500; otherwise warns on model-name mismatch,
calls `encode_queries` on the full batch, and either returns the
serialized embeddings or catches the exception and returns a response
with empty embeddings and an error string. -/
def embed {V : Type} (h? : Option (ModelHandle V)) (request : EmbeddingRequest) :
    HandlerOutcome V :=
  match h? with
  | none => ⟨.httpError 500 "Embedding model not initialized", [], 0⟩
  | some h =>
    let warns := if request.model_name ≠ h.model_name then 1 else 0
    match h.encode_queries request.texts with
    | .ok out =>
        ⟨.response ⟨some (serializeEmbeddings out), none⟩, [request.texts], warns⟩
    | .error e =>
        ⟨.response ⟨none, some ("Failed to generate embeddings: " ++ e)⟩,
          [request.texts], warns⟩

/-- The `POST /embed/document` handler (lines 122-169): identical to
`embed` except it calls `encode_documents` and uses the document error
message. -/
def embed_document {V : Type} (h? : Option (ModelHandle V)) (request : EmbeddingRequest) :
    HandlerOutcome V :=
  match h? with
  | none => ⟨.httpError 500 "Embedding model not initialized", [], 0⟩
  | some h =>
    let warns := if request.model_name ≠ h.model_name then 1 else 0
    match h.encode_documents request.texts with
    | .ok out =>
        ⟨.response ⟨some (serializeEmbeddings out), none⟩, [request.texts], warns⟩
    | .error e =>
        ⟨.response ⟨none, some ("Failed to generate document embeddings: " ++ e)⟩,
          [request.texts], warns⟩

/-- Result of `GET /health`: the success JSON body
`status healthy / model / dimensions` or a raised HTTPException. -/
inductive HealthResult where
  | healthy (model : String) (denseDim sparseDim : Nat)
  | httpError (status : Nat) (detail : String)
deriving DecidableEq

/-- Instrumented outcome of one `GET /health` invocation. -/
structure HealthOutcome where
  result : HealthResult
  encodeCalls : List (List String)
deriving DecidableEq

/-- Python `dict.get(k, default)` on the modelled `dim` dict. -/
def dictGet (d : List (String × Nat)) (k : String) (default : Nat) : Nat :=
  match d.find? (fun p => p.1 = k) with
  | some p => p.2
  | none => default

/-- The fixed probe sentence of the health check (line 187). -/
def test_text : String := "This is a test sentence for health check."

/-- The `GET /health` handler (lines 172-202).  If `bge_m3_ef is None`,
raises HTTPException 503; otherwise performs one `encode_queries` call
on the probe sentence and reports status, model name and the
`dim.get("dense", 0)` / `dim.get("sparse", 0)` dimensionalities, or
converts any exception into an HTTPException 503 carrying the message. -/
def health_check {V : Type} (h? : Option (ModelHandle V)) : HealthOutcome :=
  match h? with
  | none => ⟨.httpError 503 "Embedding model not initialized", []⟩
  | some h =>
    match h.encode_queries [test_text] with
    | .ok _ =>
        ⟨.healthy h.model_name (dictGet h.dim "dense" 0) (dictGet h.dim "sparse" 0),
          [[test_text]]⟩
    | .error e =>
        ⟨.httpError 503 ("Model check failed: " ++ e), [[test_text]]⟩

/-!
Startup configuration (`startup_event`, lines 50-68, and
`override_model_settings`, lines 236-263).  The hooks mutate the global
`bge_m3_ef` and `os.environ`; we model the process-wide state explicitly
and instrument each hook with the number of assignments it makes to
`bge_m3_ef`.  `BGEM3EmbeddingFunction(model_name, device, use_fp16)` is
the external constructor, modelled as an oracle
`construct : String → String → Bool → Except String (ModelHandle V)`.
-/

/-- The command-line arguments relevant to startup (lines 206-233):
`--model`, `--local-model-path`, `--device`, `--fp16` with their
argparse defaults. -/
structure Args where
  model : String
  local_model_path : Option String
  device : String
  fp16 : Bool
deriving DecidableEq

/-- The `os.path` operations the startup code uses, abstracted as an
oracle (the filesystem is outside the program). -/
structure OsPath where
  abspath : String → String
  dirname : String → String
  pathExists : String → Bool

/-- Process-wide mutable state touched by startup: the global
`bge_m3_ef` and the relevant slice of `os.environ`. -/
structure ProcessState (V : Type) where
  handle : Option (ModelHandle V)
  env : List (String × String)

/-- `os.environ[k] = v`: set key `k` to `v`, replacing any earlier
binding. -/
def envSet (env : List (String × String)) (k v : String) : List (String × String) :=
  (k, v) :: env.filter (fun p => p.1 ≠ k)

/-- Read key `k` from the modelled environment. -/
def envGet (env : List (String × String)) (k : String) : Option String :=
  (env.find? (fun p => p.1 = k)).map (fun p => p.2)

/-- Python truthiness of `args.local_model_path` in
`if args.local_model_path:` (line 243): `None` and the empty string are
falsy. -/
def pathGiven : Option String → Bool
  | none => false
  | some p => p ≠ ""

/-- Lines 240-250 of `override_model_settings`: resolve the model name
and the environment update.  When a truthy local path is given, its
absolute form's parent directory is written to `TRANSFORMERS_CACHE`
(line 246, before the existence check); the path becomes the model
name only if it exists (lines 247-248), otherwise the `--model`
argument is kept (fallback to download, line 250). -/
def resolveModelSettings (os : OsPath) (args : Args) (env : List (String × String)) :
    String × List (String × String) :=
  if pathGiven args.local_model_path then
    let local_model_path := os.abspath (args.local_model_path.getD "")
    let env2 := envSet env "TRANSFORMERS_CACHE" (os.dirname local_model_path)
    if os.pathExists local_model_path then (local_model_path, env2)
    else (args.model, env2)
  else (args.model, env)

/-- The module-level startup hook (lines 50-68): constructs
`BGEM3EmbeddingFunction("BAAI/bge-m3", "cpu", use_fp16=False)` and
assigns it to the global `bge_m3_ef`; on exception, logs and
re-raises.  The returned `Nat` counts assignments to `bge_m3_ef`. -/
def startup_event {V : Type}
    (construct : String → String → Bool → Except String (ModelHandle V))
    (st : ProcessState V) : Except String (ProcessState V × Nat) :=
  match construct "BAAI/bge-m3" "cpu" false with
  | .ok h => .ok (⟨some h, st.env⟩, 1)
  | .error e => .error e

/-- The `__main__`-only startup hook (lines 236-263): resolves the model
settings from the command-line arguments, constructs
`BGEM3EmbeddingFunction(model_name, args.device, args.fp16)` and
assigns it to the global `bge_m3_ef`; on exception, logs and
re-raises. -/
def override_model_settings {V : Type}
    (construct : String → String → Bool → Except String (ModelHandle V))
    (os : OsPath) (args : Args)
    (st : ProcessState V) : Except String (ProcessState V × Nat) :=
  let r := resolveModelSettings os args st.env
  match construct r.1 args.device args.fp16 with
  | .ok h => .ok (⟨some h, r.2⟩, 1)
  | .error e => .error e

/-- The startup hooks FastAPI has registered, in registration order:
`startup_event` is registered at import time (line 50); when the file
runs as a script, `override_model_settings` is registered as a second
startup hook (line 236) before the server starts. -/
def startupHooks {V : Type}
    (construct : String → String → Bool → Except String (ModelHandle V))
    (os : OsPath) (args : Args) (runAsMain : Bool) :
    List (ProcessState V → Except String (ProcessState V × Nat)) :=
  if runAsMain then
    [startup_event construct, override_model_settings construct os args]
  else
    [startup_event construct]

/-- Run the registered startup hooks in order, threading the process
state and summing the `bge_m3_ef` assignment counts; a raised exception
aborts startup (the server does not come up). -/
def runHooks {V : Type}
    (hooks : List (ProcessState V → Except String (ProcessState V × Nat)))
    (st : ProcessState V) : Except String (ProcessState V × Nat) :=
  match hooks with
  | [] => .ok (st, 0)
  | hk :: rest =>
    match hk st with
    | .error e => .error e
    | .ok (st2, n) =>
      match runHooks rest st2 with
      | .error e => .error e
      | .ok (st3, m) => .ok (st3, n + m)

/-- The whole startup phase: the fresh process state (`bge_m3_ef = None`,
line 37; environment as inherited) run through the registered hooks. -/
def runStartup {V : Type}
    (construct : String → String → Bool → Except String (ModelHandle V))
    (os : OsPath) (args : Args) (runAsMain : Bool)
    (env0 : List (String × String)) : Except String (ProcessState V × Nat) :=
  runHooks (startupHooks construct os args runAsMain) ⟨none, env0⟩

/-!
Request validation (`EmbeddingRequest`, lines 40-42).  The validation
itself is performed by FastAPI/pydantic, an external layer not in the
repository source; it is driven entirely by the declared schema
`texts: List[str]` (required) and `model_name: str = "BAAI/bge-m3"`.
-/

/-- A JSON value of a request body. -/
inductive Json where
  | null
  | bool (b : Bool)
  | num (n : Int)
  | str (s : String)
  | arr (xs : List Json)
  | obj (fields : List (String × Json))

/-- Look up a field of a JSON object body; `none` when the body is not
an object or the field is absent. -/
def jsonField (j : Json) (k : String) : Option Json :=
  match j with
  | .obj fields => (fields.find? (fun p => p.1 = k)).map (fun p => p.2)
  | _ => none

/-- Extract a string from a JSON value. -/
def jsonAsString : Json → Option String
  | .str s => some s
  | _ => none

/-- Extract a list of strings from a JSON value. -/
def jsonAsStringList : Json → Option (List String)
  | .arr xs => xs.mapM jsonAsString
  | _ => none

/-- Modelled from the spec: the FastAPI/pydantic request-validation
layer is external to the repository source; per the spec (sections 4.2
and 8) a body whose `texts` is missing or not a sequence of strings
yields a client-error response and the handler body is never entered.
The validator is driven by the schema declared at lines 40-42:
`texts` is a required list of strings, `model_name` an optional string
defaulting to `"BAAI/bge-m3"`. -/
def parseEmbeddingRequest (body : Json) : Except String EmbeddingRequest :=
  match jsonField body "texts" with
  | none => .error "field required: texts"
  | some t =>
    match jsonAsStringList t with
    | none => .error "texts is not a sequence of strings"
    | some texts =>
      match jsonField body "model_name" with
      | none => .ok ⟨texts, "BAAI/bge-m3"⟩
      | some m =>
        match jsonAsString m with
        | none => .error "model_name is not a string"
        | some name => .ok ⟨texts, name⟩

/-- Endpoint-level result: a 422 validation rejection produced before
the handler runs, or the handler's outcome. -/
inductive EndpointResult (V : Type) where
  | validationError (status : Nat) (detail : String)
  | handled (o : HandlerOutcome V)
deriving DecidableEq

/-- `POST /embed` including the validation layer: a body failing
validation is rejected with a 422 client error and the handler (and
hence the encode call) never runs. -/
def embedEndpoint {V : Type} (h? : Option (ModelHandle V)) (body : Json) :
    EndpointResult V :=
  match parseEmbeddingRequest body with
  | .error e => .validationError 422 e
  | .ok req => .handled (embed h? req)

/-- `POST /embed/document` including the validation layer. -/
def embedDocumentEndpoint {V : Type} (h? : Option (ModelHandle V)) (body : Json) :
    EndpointResult V :=
  match parseEmbeddingRequest body with
  | .error e => .validationError 422 e
  | .ok req => .handled (embed_document h? req)

/-- Whether the `texts` field of a request body is present and is a
sequence of strings (the schema requirement declared at line 41). -/
def textsWellFormed (body : Json) : Bool :=
  match jsonField body "texts" with
  | none => false
  | some t => (jsonAsStringList t).isSome

/-- The nominal dimensionality bound of a sparse vector's `shape`
descriptor (spec section 3: a 1- or 2-element size descriptor whose
last entry is the vocabulary dimensionality). -/
def shapeBound (shape : List Nat) : Nat :=
  shape.getLastD 0

/-- Observe the total number of assignments to `bge_m3_ef` a completed
startup made. -/
def startupAssignments {V : Type} (r : Except String (ProcessState V × Nat)) :
    Option Nat :=
  match r with
  | .ok (_, n) => some n
  | .error _ => none

/-- Observe the loaded model identifier after a completed startup. -/
def startupModelName {V : Type} (r : Except String (ProcessState V × Nat)) :
    Option String :=
  match r with
  | .ok (st, _) => st.handle.map ModelHandle.model_name
  | .error _ => none

/-- Observe the `TRANSFORMERS_CACHE` environment entry after a
completed startup. -/
def startupEnvCache {V : Type} (r : Except String (ProcessState V × Nat)) :
    Option String :=
  match r with
  | .ok (st, _) => envGet st.env "TRANSFORMERS_CACHE"
  | .error _ => none

/-!
Concrete fixtures used by witnesses and counterexamples, with `V := Int`.
-/

/-- A concrete encode oracle honouring the collaborator contract of
spec section 6: one dense vector and one sparse structure per input
text. -/
def sampleEncode (ts : List String) : Except String (EncodeOutput Int) :=
  .ok ⟨ts.map (fun _ => [1, 2]), ts.map (fun _ => ⟨[0, 3], [5, 7], [1, 4]⟩)⟩

/-- A concrete loaded model handle. -/
def sampleHandle : ModelHandle Int :=
  ⟨"BAAI/bge-m3", [("dense", 1024), ("sparse", 250002)], sampleEncode, sampleEncode⟩

/-- A concrete handle whose encode operations always raise. -/
def failingHandle : ModelHandle Int :=
  ⟨"BAAI/bge-m3", [("dense", 1024), ("sparse", 250002)],
    fun _ => .error "CUDA out of memory", fun _ => .error "CUDA out of memory"⟩

/-- A concrete handle whose `dim` dict lacks both keys. -/
def noDimHandle : ModelHandle Int :=
  ⟨"BAAI/bge-m3", [], sampleEncode, sampleEncode⟩

/-- A concrete external constructor: loading always succeeds and the
handle records which model identifier it was constructed with. -/
def okConstruct : String → String → Bool → Except String (ModelHandle Int) :=
  fun name _ _ => .ok ⟨name, [], sampleEncode, sampleEncode⟩

/-- A concrete filesystem for the startup counterexamples: absolute
paths are kept as-is, every directory name is `/models`, and no path
exists on disk. -/
def missingOs : OsPath :=
  ⟨fun p => p, fun _ => "/models", fun _ => false⟩

/-- A concrete filesystem on which every path exists. -/
def presentOs : OsPath :=
  ⟨fun p => p, fun _ => "/models", fun _ => true⟩

/-- Concrete command-line arguments selecting a custom model. -/
def customArgs : Args :=
  ⟨"custom-model", none, "cpu", false⟩

/-- Concrete command-line arguments giving a local model path. -/
def localArgs : Args :=
  ⟨"BAAI/bge-m3", some "/models/bge-m3", "cpu", false⟩

/-- A concrete request. -/
def sampleRequest : EmbeddingRequest :=
  ⟨["hello world"], "BAAI/bge-m3"⟩

/-- A concrete request declaring a different model name. -/
def mismatchRequest : EmbeddingRequest :=
  ⟨["hello world"], "some-other-model"⟩

/-- A concrete malformed body: `texts` is a list containing a number. -/
def badBody : Json :=
  .obj [("texts", .arr [.str "ok", .num 3])]

/-!
Helper lemmas shared across the claim theorems.
-/

/-- Serializing a batch of sparse structures keeps the parallel arrays,
their order and the shape of each structure, hence preserves the
length-equality and index-bound invariants. -/
theorem serializeSparse_batch_spec {V : Type} (l : List (SparseEmb V))
    (hinv : ∀ s ∈ l, s.indices.length = s.data.length ∧
      ∀ i ∈ s.indices, i < shapeBound s.shape) :
    ∀ v ∈ l.map serializeSparse,
      (∃ s ∈ l, v.indices = s.indices ∧ v.values = s.data ∧ v.shape = s.shape) ∧
      v.indices.length = v.values.length ∧
      ∀ i ∈ v.indices, i < shapeBound v.shape := by
  intro v hv
  rcases List.mem_map.mp hv with ⟨s, hs, rfl⟩
  rcases hinv s hs with ⟨h1, h2⟩
  exact ⟨⟨s, hs, rfl, rfl, rfl⟩, h1, h2⟩

/-- Setting an environment key makes it readable back. -/
theorem envGet_envSet (env : List (String × String)) (k v : String) :
    envGet (envSet env k v) k = some v := by
  simp [envGet, envSet]

/-!
Claim theorems.
-/

/-- C1: for every list of input texts accepted by `POST /embed` or
`POST /embed/document` on which the model's encode call succeeds
(returning, per the collaborator contract of spec section 6, one dense
vector and one sparse structure per input text), the response's
embeddings contain exactly one dense vector and one sparse structure
per input text, in the same order as the library returns them for the
inputs; an empty texts list yields empty dense and sparse batches. -/
theorem embed_one_embedding_per_text {V : Type} (h : ModelHandle V)
    (req : EmbeddingRequest) (outQ outD : EncodeOutput V)
    (hq : h.encode_queries req.texts = .ok outQ)
    (hd : h.encode_documents req.texts = .ok outD)
    (hq1 : outQ.dense.length = req.texts.length)
    (hq2 : outQ.sparse.length = req.texts.length)
    (hd1 : outD.dense.length = req.texts.length)
    (hd2 : outD.sparse.length = req.texts.length) :
    (∃ ser : SerializedEmbeddings V,
      (embed (some h) req).result = .response ⟨some ser, none⟩ ∧
      ser.dense.length = req.texts.length ∧
      ser.sparse.length = req.texts.length ∧
      ser.dense = outQ.dense ∧
      ser.sparse = outQ.sparse.map serializeSparse ∧
      (req.texts = [] → ser.dense = [] ∧ ser.sparse = [])) ∧
    (∃ ser : SerializedEmbeddings V,
      (embed_document (some h) req).result = .response ⟨some ser, none⟩ ∧
      ser.dense.length = req.texts.length ∧
      ser.sparse.length = req.texts.length ∧
      ser.dense = outD.dense ∧
      ser.sparse = outD.sparse.map serializeSparse ∧
      (req.texts = [] → ser.dense = [] ∧ ser.sparse = [])) := by
  constructor
  · refine ⟨serializeEmbeddings outQ, ?_, ?_, ?_, rfl, rfl, ?_⟩
    · simp [embed, hq]
    · simpa [serializeEmbeddings] using hq1
    · simpa [serializeEmbeddings, List.length_map] using hq2
    · intro hnil
      rw [hnil] at hq1 hq2
      constructor
      · exact List.length_eq_zero.mp (by simpa [serializeEmbeddings] using hq1)
      · exact List.length_eq_zero.mp
          (by simpa [serializeEmbeddings, List.length_map] using hq2)
  · refine ⟨serializeEmbeddings outD, ?_, ?_, ?_, rfl, rfl, ?_⟩
    · simp [embed_document, hd]
    · simpa [serializeEmbeddings] using hd1
    · simpa [serializeEmbeddings, List.length_map] using hd2
    · intro hnil
      rw [hnil] at hd1 hd2
      constructor
      · exact List.length_eq_zero.mp (by simpa [serializeEmbeddings] using hd1)
      · exact List.length_eq_zero.mp
          (by simpa [serializeEmbeddings, List.length_map] using hd2)

/-- Witness for C1 at a concrete handle and request. -/
theorem embed_one_embedding_per_text_witness :
    (∃ ser : SerializedEmbeddings Int,
      (embed (some sampleHandle) sampleRequest).result = .response ⟨some ser, none⟩ ∧
      ser.dense.length = sampleRequest.texts.length ∧
      ser.sparse.length = sampleRequest.texts.length ∧
      ser.dense = [[1, 2]] ∧
      ser.sparse = [SparseEmb.mk [0, 3] [5, 7] [1, 4]].map serializeSparse ∧
      (sampleRequest.texts = [] → ser.dense = [] ∧ ser.sparse = [])) ∧
    (∃ ser : SerializedEmbeddings Int,
      (embed_document (some sampleHandle) sampleRequest).result = .response ⟨some ser, none⟩ ∧
      ser.dense.length = sampleRequest.texts.length ∧
      ser.sparse.length = sampleRequest.texts.length ∧
      ser.dense = [[1, 2]] ∧
      ser.sparse = [SparseEmb.mk [0, 3] [5, 7] [1, 4]].map serializeSparse ∧
      (sampleRequest.texts = [] → ser.dense = [] ∧ ser.sparse = [])) :=
  embed_one_embedding_per_text sampleHandle sampleRequest
    ⟨[[1, 2]], [⟨[0, 3], [5, 7], [1, 4]⟩]⟩ ⟨[[1, 2]], [⟨[0, 3], [5, 7], [1, 4]⟩]⟩
    rfl rfl rfl rfl rfl rfl

/-- C2: whenever the handle is set, `POST /embed` and
`POST /embed/document` return an HTTP-200 `EmbeddingResponse` (never a
raised transport error), in which either `error` is unset and
`embeddings` is populated, or `error` is a non-empty string and
`embeddings` is the empty dict; and when the encode call raises, the
returned response carries exactly the error string built from the
exception message, with empty embeddings. -/
theorem embed_error_xor_embeddings {V : Type} (h : ModelHandle V)
    (req : EmbeddingRequest) :
    (∃ r : EmbeddingResponse V, (embed (some h) req).result = .response r ∧
      ((r.error = none ∧ r.embeddings.isSome = true) ∨
        (∃ m, r.error = some m ∧ m.length ≠ 0 ∧ r.embeddings = none))) ∧
    (∃ r : EmbeddingResponse V, (embed_document (some h) req).result = .response r ∧
      ((r.error = none ∧ r.embeddings.isSome = true) ∨
        (∃ m, r.error = some m ∧ m.length ≠ 0 ∧ r.embeddings = none))) ∧
    (∀ e, h.encode_queries req.texts = .error e →
      (embed (some h) req).result =
        .response ⟨none, some ("Failed to generate embeddings: " ++ e)⟩) ∧
    (∀ e, h.encode_documents req.texts = .error e →
      (embed_document (some h) req).result =
        .response ⟨none, some ("Failed to generate document embeddings: " ++ e)⟩) := by
  refine ⟨?_, ?_, ?_, ?_⟩
  · cases hq : h.encode_queries req.texts with
    | ok out =>
        exact ⟨⟨some (serializeEmbeddings out), none⟩, by simp [embed, hq],
          .inl ⟨rfl, rfl⟩⟩
    | error e =>
        refine ⟨⟨none, some ("Failed to generate embeddings: " ++ e)⟩,
          by simp [embed, hq], .inr ⟨_, rfl, ?_, rfl⟩⟩
        have h1 : ("Failed to generate embeddings: ").length = 31 := rfl
        have h2 := String.length_append "Failed to generate embeddings: " e
        omega
  · cases hd : h.encode_documents req.texts with
    | ok out =>
        exact ⟨⟨some (serializeEmbeddings out), none⟩, by simp [embed_document, hd],
          .inl ⟨rfl, rfl⟩⟩
    | error e =>
        refine ⟨⟨none, some ("Failed to generate document embeddings: " ++ e)⟩,
          by simp [embed_document, hd], .inr ⟨_, rfl, ?_, rfl⟩⟩
        have h1 : ("Failed to generate document embeddings: ").length = 40 := rfl
        have h2 := String.length_append "Failed to generate document embeddings: " e
        omega
  · intro e hq
    simp [embed, hq]
  · intro e hd
    simp [embed_document, hd]

/-- Witness for C2 at a concrete handle whose encode calls raise. -/
theorem embed_error_xor_embeddings_witness :
    (∃ r : EmbeddingResponse Int,
      (embed (some failingHandle) sampleRequest).result = .response r ∧
      ((r.error = none ∧ r.embeddings.isSome = true) ∨
        (∃ m, r.error = some m ∧ m.length ≠ 0 ∧ r.embeddings = none))) ∧
    (∃ r : EmbeddingResponse Int,
      (embed_document (some failingHandle) sampleRequest).result = .response r ∧
      ((r.error = none ∧ r.embeddings.isSome = true) ∨
        (∃ m, r.error = some m ∧ m.length ≠ 0 ∧ r.embeddings = none))) ∧
    (∀ e, failingHandle.encode_queries sampleRequest.texts = .error e →
      (embed (some failingHandle) sampleRequest).result =
        .response ⟨none, some ("Failed to generate embeddings: " ++ e)⟩) ∧
    (∀ e, failingHandle.encode_documents sampleRequest.texts = .error e →
      (embed_document (some failingHandle) sampleRequest).result =
        .response ⟨none, some ("Failed to generate document embeddings: " ++ e)⟩) :=
  embed_error_xor_embeddings failingHandle sampleRequest

/-- C3: any request handled while `bge_m3_ef` is `None` raises an HTTP
error (500 for the two embed endpoints, 503 for the health check) with
a detail message, performs no encode call, and computes no
embeddings. -/
theorem uninitialized_handle_rejected {V : Type} (req : EmbeddingRequest) :
    embed (none : Option (ModelHandle V)) req =
      ⟨.httpError 500 "Embedding model not initialized", [], 0⟩ ∧
    embed_document (none : Option (ModelHandle V)) req =
      ⟨.httpError 500 "Embedding model not initialized", [], 0⟩ ∧
    health_check (none : Option (ModelHandle V)) =
      ⟨.httpError 503 "Embedding model not initialized", []⟩ :=
  ⟨rfl, rfl, rfl⟩

/-- C4: every sparse structure returned by the model library is
serialized with `indices` and `values` taken verbatim from its
parallel internal arrays and `shape` copied unchanged; hence, given the
library invariant that the arrays are parallel and in-bounds, every
serialized `SparseVector` in either endpoint's response satisfies
`indices.length = values.length` and has all indices below the shape
bound. -/
theorem sparse_serialization_faithful {V : Type} (h : ModelHandle V)
    (req : EmbeddingRequest) (outQ outD : EncodeOutput V)
    (hq : h.encode_queries req.texts = .ok outQ)
    (hd : h.encode_documents req.texts = .ok outD)
    (hinvQ : ∀ s ∈ outQ.sparse, s.indices.length = s.data.length ∧
      ∀ i ∈ s.indices, i < shapeBound s.shape)
    (hinvD : ∀ s ∈ outD.sparse, s.indices.length = s.data.length ∧
      ∀ i ∈ s.indices, i < shapeBound s.shape) :
    (∃ ser : SerializedEmbeddings V,
      (embed (some h) req).result = .response ⟨some ser, none⟩ ∧
      ser.sparse = outQ.sparse.map serializeSparse ∧
      ∀ v ∈ ser.sparse,
        (∃ s ∈ outQ.sparse,
          v.indices = s.indices ∧ v.values = s.data ∧ v.shape = s.shape) ∧
        v.indices.length = v.values.length ∧
        ∀ i ∈ v.indices, i < shapeBound v.shape) ∧
    (∃ ser : SerializedEmbeddings V,
      (embed_document (some h) req).result = .response ⟨some ser, none⟩ ∧
      ser.sparse = outD.sparse.map serializeSparse ∧
      ∀ v ∈ ser.sparse,
        (∃ s ∈ outD.sparse,
          v.indices = s.indices ∧ v.values = s.data ∧ v.shape = s.shape) ∧
        v.indices.length = v.values.length ∧
        ∀ i ∈ v.indices, i < shapeBound v.shape) := by
  constructor
  · exact ⟨serializeEmbeddings outQ, by simp [embed, hq], rfl,
      serializeSparse_batch_spec outQ.sparse hinvQ⟩
  · exact ⟨serializeEmbeddings outD, by simp [embed_document, hd], rfl,
      serializeSparse_batch_spec outD.sparse hinvD⟩

/-- Witness for C4 at a concrete handle and request. -/
theorem sparse_serialization_faithful_witness :
    (∃ ser : SerializedEmbeddings Int,
      (embed (some sampleHandle) sampleRequest).result = .response ⟨some ser, none⟩ ∧
      ser.sparse = [SparseEmb.mk [0, 3] [5, 7] [1, 4]].map serializeSparse ∧
      ∀ v ∈ ser.sparse,
        (∃ s ∈ [SparseEmb.mk [0, 3] [5, 7] [1, 4]],
          v.indices = s.indices ∧ v.values = s.data ∧ v.shape = s.shape) ∧
        v.indices.length = v.values.length ∧
        ∀ i ∈ v.indices, i < shapeBound v.shape) ∧
    (∃ ser : SerializedEmbeddings Int,
      (embed_document (some sampleHandle) sampleRequest).result =
        .response ⟨some ser, none⟩ ∧
      ser.sparse = [SparseEmb.mk [0, 3] [5, 7] [1, 4]].map serializeSparse ∧
      ∀ v ∈ ser.sparse,
        (∃ s ∈ [SparseEmb.mk [0, 3] [5, 7] [1, 4]],
          v.indices = s.indices ∧ v.values = s.data ∧ v.shape = s.shape) ∧
        v.indices.length = v.values.length ∧
        ∀ i ∈ v.indices, i < shapeBound v.shape) :=
  sparse_serialization_faithful sampleHandle sampleRequest
    ⟨[[1, 2]], [⟨[0, 3], [5, 7], [1, 4]⟩]⟩ ⟨[[1, 2]], [⟨[0, 3], [5, 7], [1, 4]⟩]⟩
    rfl rfl (by decide) (by decide)

/-- C5 counterexample: when the file runs as a script, FastAPI has two
registered startup hooks (`startup_event` from line 50 and
`override_model_settings` from line 236) and runs both, so in the
concrete execution below the global `bge_m3_ef` is assigned twice
during startup — not at most once — and, after being set to the
default-model handle by the first hook, is reassigned to the
custom-model handle by the second. -/
theorem model_handle_single_assignment_counterexample :
    startupAssignments (runStartup okConstruct missingOs customArgs true []) =
      some 2 ∧
    ¬(2 ≤ 1) ∧
    startupModelName (runHooks [startup_event okConstruct]
      (⟨none, []⟩ : ProcessState Int)) = some "BAAI/bge-m3" ∧
    startupModelName (runStartup okConstruct missingOs customArgs true []) =
      some "custom-model" :=
  ⟨rfl, by decide, rfl, rfl⟩

/-- C5 amended: during startup the handle is assigned once per
successfully completed registered hook — hence at most twice when run
as a script (default hook plus command-line override hook) and at most
once otherwise; request handlers never write it. -/
theorem model_handle_assignments_bounded {V : Type}
    (construct : String → String → Bool → Except String (ModelHandle V))
    (os : OsPath) (args : Args) (runAsMain : Bool)
    (env0 : List (String × String)) (n : Nat)
    (hrun : startupAssignments (runStartup construct os args runAsMain env0) =
      some n) :
    n ≤ 2 ∧ (runAsMain = false → n ≤ 1) := by
  cases runAsMain with
  | false =>
    cases hc : construct "BAAI/bge-m3" "cpu" false with
    | ok h =>
        simp [runStartup, startupHooks, runHooks, startup_event, hc,
          startupAssignments] at hrun
        omega
    | error e =>
        simp [runStartup, startupHooks, runHooks, startup_event, hc,
          startupAssignments] at hrun
  | true =>
    cases hc : construct "BAAI/bge-m3" "cpu" false with
    | error e =>
        simp [runStartup, startupHooks, runHooks, startup_event, hc,
          startupAssignments] at hrun
    | ok h =>
        cases hc2 : construct (resolveModelSettings os args env0).1
            args.device args.fp16 with
        | ok h2 =>
            simp [runStartup, startupHooks, runHooks, startup_event,
              override_model_settings, hc, hc2, startupAssignments] at hrun
            exact ⟨by omega, fun hf => Bool.noConfusion hf⟩
        | error e =>
            simp [runStartup, startupHooks, runHooks, startup_event,
              override_model_settings, hc, hc2, startupAssignments] at hrun

/-- Witness for the amended C5 at a concrete non-script startup. -/
theorem model_handle_assignments_bounded_witness :
    startupAssignments (runStartup okConstruct missingOs customArgs false []) =
      some 1 ∧
    (1 ≤ 2 ∧ (false = false → 1 ≤ 1)) :=
  ⟨rfl, model_handle_assignments_bounded okConstruct missingOs customArgs
    false [] 1 rfl⟩

/-- C6 counterexample: at a given-but-missing local model path, the
code still redirects `TRANSFORMERS_CACHE` to the path's parent
directory (line 246 runs before the existence check of line 247) while
falling back to the remote model identifier — so the redirection is
not "exactly when the path is given and exists". -/
theorem cache_redirect_counterexample :
    pathGiven localArgs.local_model_path = true ∧
    missingOs.pathExists (missingOs.abspath "/models/bge-m3") = false ∧
    envGet (resolveModelSettings missingOs localArgs []).2 "TRANSFORMERS_CACHE" =
      some "/models" ∧
    (resolveModelSettings missingOs localArgs []).1 = "BAAI/bge-m3" ∧
    startupEnvCache (runStartup okConstruct missingOs localArgs true []) =
      some "/models" :=
  ⟨rfl, rfl, rfl, rfl, rfl⟩

/-- C6 amended: the cache environment location is redirected to the
absolute local path's parent directory exactly when a (truthy) local
path is given, regardless of existence; the path becomes the model
identifier exactly when it also exists, and otherwise the remote model
identifier string is used. -/
theorem cache_redirect_iff_path_given (os : OsPath) (args : Args)
    (env : List (String × String)) :
    (pathGiven args.local_model_path = true →
      envGet (resolveModelSettings os args env).2 "TRANSFORMERS_CACHE" =
        some (os.dirname (os.abspath (args.local_model_path.getD ""))) ∧
      (resolveModelSettings os args env).1 =
        (if os.pathExists (os.abspath (args.local_model_path.getD ""))
          then os.abspath (args.local_model_path.getD "") else args.model)) ∧
    (pathGiven args.local_model_path = false →
      (resolveModelSettings os args env).2 = env ∧
      (resolveModelSettings os args env).1 = args.model) := by
  constructor
  · intro hg
    cases hex : os.pathExists (os.abspath (args.local_model_path.getD "")) <;>
      simp [resolveModelSettings, hg, hex, envGet_envSet]
  · intro hg
    simp [resolveModelSettings, hg]

/-- Witness for the amended C6 at a concrete path that exists. -/
theorem cache_redirect_iff_path_given_witness :
    pathGiven localArgs.local_model_path = true ∧
    (envGet (resolveModelSettings presentOs localArgs []).2 "TRANSFORMERS_CACHE" =
      some (presentOs.dirname (presentOs.abspath (localArgs.local_model_path.getD ""))) ∧
    (resolveModelSettings presentOs localArgs []).1 =
      (if presentOs.pathExists (presentOs.abspath (localArgs.local_model_path.getD ""))
        then presentOs.abspath (localArgs.local_model_path.getD "")
        else localArgs.model)) :=
  ⟨rfl, (cache_redirect_iff_path_given presentOs localArgs []).1 rfl⟩

/-- C7: a model-name mismatch is never treated as an error: the handler
emits one warning and produces exactly the result (and encode calls) of
the otherwise-identical request whose model name matches the loaded
model, which warns zero times. -/
theorem model_name_mismatch_warns_and_proceeds {V : Type} (h : ModelHandle V)
    (req : EmbeddingRequest) (hne : req.model_name ≠ h.model_name) :
    (embed (some h) req).warnings = 1 ∧
    (embed (some h) ⟨req.texts, h.model_name⟩).warnings = 0 ∧
    (embed (some h) req).result =
      (embed (some h) ⟨req.texts, h.model_name⟩).result ∧
    (embed (some h) req).encodeCalls =
      (embed (some h) ⟨req.texts, h.model_name⟩).encodeCalls ∧
    (embed_document (some h) req).warnings = 1 ∧
    (embed_document (some h) ⟨req.texts, h.model_name⟩).warnings = 0 ∧
    (embed_document (some h) req).result =
      (embed_document (some h) ⟨req.texts, h.model_name⟩).result ∧
    (embed_document (some h) req).encodeCalls =
      (embed_document (some h) ⟨req.texts, h.model_name⟩).encodeCalls := by
  cases hq : h.encode_queries req.texts <;>
    cases hd : h.encode_documents req.texts <;>
      simp [embed, embed_document, hq, hd, hne]

/-- Witness for C7 at a concrete handle and mismatching request. -/
theorem model_name_mismatch_warns_and_proceeds_witness :
    (embed (some sampleHandle) mismatchRequest).warnings = 1 ∧
    (embed (some sampleHandle)
      ⟨mismatchRequest.texts, sampleHandle.model_name⟩).warnings = 0 ∧
    (embed (some sampleHandle) mismatchRequest).result =
      (embed (some sampleHandle)
        ⟨mismatchRequest.texts, sampleHandle.model_name⟩).result ∧
    (embed (some sampleHandle) mismatchRequest).encodeCalls =
      (embed (some sampleHandle)
        ⟨mismatchRequest.texts, sampleHandle.model_name⟩).encodeCalls ∧
    (embed_document (some sampleHandle) mismatchRequest).warnings = 1 ∧
    (embed_document (some sampleHandle)
      ⟨mismatchRequest.texts, sampleHandle.model_name⟩).warnings = 0 ∧
    (embed_document (some sampleHandle) mismatchRequest).result =
      (embed_document (some sampleHandle)
        ⟨mismatchRequest.texts, sampleHandle.model_name⟩).result ∧
    (embed_document (some sampleHandle) mismatchRequest).encodeCalls =
      (embed_document (some sampleHandle)
        ⟨mismatchRequest.texts, sampleHandle.model_name⟩).encodeCalls :=
  model_name_mismatch_warns_and_proceeds sampleHandle mismatchRequest (by decide)

/-- C8: with the handle set, the health check performs exactly one
query-mode encode call on the fixed probe sentence; on success it
reports healthy with the loaded model identifier and the dim-dict
dense/sparse dimensionalities, and on a raised exception it fails with
status 503 and a detail containing the exception message. -/
theorem health_check_probe {V : Type} (h : ModelHandle V) :
    (health_check (some h)).encodeCalls = [[test_text]] ∧
    (∀ out, h.encode_queries [test_text] = .ok out →
      (health_check (some h)).result =
        .healthy h.model_name (dictGet h.dim "dense" 0) (dictGet h.dim "sparse" 0)) ∧
    (∀ e, h.encode_queries [test_text] = .error e →
      (health_check (some h)).result =
        .httpError 503 ("Model check failed: " ++ e) ∧
      ∃ d, (health_check (some h)).result = .httpError 503 d ∧
        ∃ p, d = p ++ e) := by
  refine ⟨?_, ?_, ?_⟩
  · cases hq : h.encode_queries [test_text] <;> simp [health_check, hq]
  · intro out hq
    simp [health_check, hq]
  · intro e hq
    exact ⟨by simp [health_check, hq], "Model check failed: " ++ e,
      by simp [health_check, hq], "Model check failed: ", rfl⟩

/-- Witness for C8 at a concrete handle whose probe call raises. -/
theorem health_check_probe_witness :
    (health_check (some failingHandle)).encodeCalls = [[test_text]] ∧
    (∀ out, failingHandle.encode_queries [test_text] = .ok out →
      (health_check (some failingHandle)).result =
        .healthy failingHandle.model_name
          (dictGet failingHandle.dim "dense" 0)
          (dictGet failingHandle.dim "sparse" 0)) ∧
    (∀ e, failingHandle.encode_queries [test_text] = .error e →
      (health_check (some failingHandle)).result =
        .httpError 503 ("Model check failed: " ++ e) ∧
      ∃ d, (health_check (some failingHandle)).result = .httpError 503 d ∧
        ∃ p, d = p ++ e) :=
  health_check_probe failingHandle

/-- C9: a request body whose `texts` field is missing or is not a
sequence of strings is rejected by the validation layer with a 422
client error on both embed endpoints; the handler body (and hence the
encode call) never runs. -/
theorem malformed_texts_rejected {V : Type} (h? : Option (ModelHandle V))
    (body : Json) (hbad : textsWellFormed body = false) :
    (∃ d, embedEndpoint h? body = .validationError 422 d) ∧
    (∃ d, embedDocumentEndpoint h? body = .validationError 422 d) := by
  cases ht : jsonField body "texts" with
  | none =>
      simp [embedEndpoint, embedDocumentEndpoint, parseEmbeddingRequest, ht]
  | some t =>
      rw [textsWellFormed, ht] at hbad
      cases hl : jsonAsStringList t with
      | none =>
          simp [embedEndpoint, embedDocumentEndpoint, parseEmbeddingRequest,
            ht, hl]
      | some l =>
          simp [hl] at hbad

/-- Witness for C9 at a concrete malformed body. -/
theorem malformed_texts_rejected_witness :
    (∃ d, embedEndpoint (some sampleHandle) badBody = .validationError 422 d) ∧
    (∃ d, embedDocumentEndpoint (some sampleHandle) badBody =
      .validationError 422 d) :=
  malformed_texts_rejected (some sampleHandle) badBody rfl

/-- C10: if the handle is set, the probe encode succeeds and the
handle's `dim` dict lacks the dense or the sparse key, the health
check still succeeds and reports 0 for each missing dimension. -/
theorem health_check_missing_dims_default_zero {V : Type} (h : ModelHandle V)
    (out : EncodeOutput V) (hok : h.encode_queries [test_text] = .ok out) :
    (h.dim.find? (fun p => p.1 = "dense") = none →
      (health_check (some h)).result =
        .healthy h.model_name 0 (dictGet h.dim "sparse" 0)) ∧
    (h.dim.find? (fun p => p.1 = "sparse") = none →
      (health_check (some h)).result =
        .healthy h.model_name (dictGet h.dim "dense" 0) 0) := by
  constructor
  · intro hdense
    simp [health_check, hok, dictGet, hdense]
  · intro hsparse
    simp [health_check, hok, dictGet, hsparse]

/-- Witness for C10 at a concrete handle with an empty dim dict. -/
theorem health_check_missing_dims_default_zero_witness :
    (noDimHandle.dim.find? (fun p => p.1 = "dense") = none →
      (health_check (some noDimHandle)).result =
        .healthy noDimHandle.model_name 0 (dictGet noDimHandle.dim "sparse" 0)) ∧
    (noDimHandle.dim.find? (fun p => p.1 = "sparse") = none →
      (health_check (some noDimHandle)).result =
        .healthy noDimHandle.model_name (dictGet noDimHandle.dim "dense" 0) 0) :=
  health_check_missing_dims_default_zero noDimHandle
    ⟨[[1, 2]], [⟨[0, 3], [5, 7], [1, 4]⟩]⟩ rfl

end EmbeddingServer
